import Mathlib

/-!
Verification of the `LocalPcieTransport` module of casperfpga
(`src/transport_localpcie.py`) against its natural-language specification.

The Python module is shallowly embedded below:
* the 8 MiB memory-mapped register window (`axil_mm`) is a function `Nat → Nat`
  together with Python slice semantics (`pySlice`, `mmSetSlice`);
* fallible operations return the resulting object state paired with an
  `Except`, mirroring Python methods that may raise after mutating;
* external collaborators explicitly excluded by the design (the fpg container
  parser `parse_fpg`, `zlib.decompress`, the md5 digest) enter as parameters
  or as the already-produced values the module consumes.
-/

deriving instance DecidableEq for Except

namespace LocalPcieTransport

/-- AXI -> PCIe offset defined in firmware block diagram (module constant). -/
def AXIL_PCI_ADDR_TRANSLATION : Nat := 0x00000000

/-- Size of AXI-lite memory to map: 8 MiB (module constant `MAP_SIZE`). -/
def MAP_SIZE : Nat := 8 * 1024 * 1024

/-- Python slice read `mm[a : b]` on the 8 MiB mmap buffer: indices are clamped
to the buffer length, and the bytes are returned as a list. -/
def pySlice (mem : Nat → Nat) (a b : Nat) : List Nat :=
  (List.range' (min a MAP_SIZE) (min b MAP_SIZE - min a MAP_SIZE)).map mem

/-- Python slice assignment `mm[s : s + data.length] = data` on the mapped
buffer, in the case where the target range is in bounds (the out-of-bounds
case raises and is handled at the call site in `writeChunksAux`). -/
def mmSetSlice (mem : Nat → Nat) (s : Nat) (data : List Nat) : Nat → Nat :=
  fun i => if s ≤ i ∧ i < s + data.length then data.getD (i - s) 0 else mem i

/-- The chunked write loop of `blindwrite`:
`for i in range(size // block_size + 1): n_bytes = min(size - written, 4096);
if n_bytes > 0: mm[addr+written : addr+written+n_bytes] = data[written : written+n_bytes];
written += n_bytes`.
The first `Nat` argument of the recursion is the number of remaining loop
iterations.  A chunk whose target range leaves the mapped window makes the
mmap slice assignment raise `IndexError`; the loop then stops with the memory
mutated by the chunks already written, as in Python. -/
def writeChunksAux (addr : Nat) (data : List Nat) :
    Nat → Nat → (Nat → Nat) → (Nat → Nat) × Option String
  | 0, _, mem => (mem, none)
  | k + 1, written, mem =>
    if 0 < min (data.length - written) 4096 then
      if addr + written + min (data.length - written) 4096 ≤ MAP_SIZE then
        writeChunksAux addr data k (written + min (data.length - written) 4096)
          (mmSetSlice mem (addr + written)
            ((data.drop written).take (min (data.length - written) 4096)))
      else (mem, some "IndexError: mmap slice assignment is wrong size")
    else writeChunksAux addr data k written mem

/-- The mutable state of a `LocalPcieTransport` session that the verified
operations touch: the parent's register-name table `memory_devices`, the
mapped control-plane window `axil_mm`, the session template tag, and the log
of payloads written to the `h2c` streaming device. -/
structure TransportState where
  memory_devices : List (String × Nat)
  mem : Nat → Nat
  fpg_template : Option String
  streamed : List (List Nat)

/-- A `device_name` argument as Python receives it: a register name (string)
or an absolute integer address. -/
def DeviceName : Type := String ⊕ Int

/-- Method `_get_device_address`: look the name up in `memory_devices`; otherwise
accept an integer in the 32-bit address space; otherwise raise `ValueError`.
(An integer is never a key of the string-keyed `memory_devices` dict, and for
a string the `type(device_name) == int` test fails, so the two branches
separate exactly as below.) -/
def get_device_address (st : TransportState) (dev : DeviceName) : Except String Nat :=
  match dev with
  | Sum.inl name =>
    if st.memory_devices ≠ [] ∧ (st.memory_devices.lookup name).isSome then
      Except.ok ((st.memory_devices.lookup name).getD 0)
    else Except.error "Could not find device"
  | Sum.inr n =>
    if 0 ≤ n ∧ n < 2 ^ 32 then Except.ok n.toNat
    else Except.error "Could not find device"

/-- Method `read(device_name, size, offset)`: translate the address and return the
slice `axil_mm[addr : addr + size]`. -/
def read (st : TransportState) (dev : DeviceName) (size : Nat) (offset : Nat) :
    Except String (List Nat) :=
  match get_device_address st dev with
  | Except.error e => Except.error e
  | Except.ok a =>
    Except.ok (pySlice st.mem (a - AXIL_PCI_ADDR_TRANSLATION + offset)
      (a - AXIL_PCI_ADDR_TRANSLATION + offset + size))

/-- Method `blindwrite(device_name, data, offset)`: assert 4-byte alignment of length
and offset, translate the address, then write in 4096-byte chunks.  The
returned pair is the session state after the call together with its outcome;
the assertion failures leave the state untouched, a mid-loop `IndexError`
keeps the chunks already written. -/
def blindwrite (st : TransportState) (dev : DeviceName) (data : List Nat)
    (offset : Nat) : TransportState × Except String Unit :=
  if ¬ data.length % 4 = 0 then
    (st, Except.error "Must write 32-bit-bounded words")
  else if ¬ offset % 4 = 0 then
    (st, Except.error "Must write 32-bit-bounded words")
  else
    match get_device_address st dev with
    | Except.error e => (st, Except.error e)
    | Except.ok a =>
      match writeChunksAux (a - AXIL_PCI_ADDR_TRANSLATION + offset) data
          (data.length / 4096 + 1) 0 st.mem with
      | (memFinal, none) => ({ st with mem := memFinal }, Except.ok ())
      | (memFinal, some e) => ({ st with mem := memFinal }, Except.error e)

/-- Spec-side model of "a single contiguous write of the whole payload at the
same translated address": one slice assignment of all of `data` at `addr`
(§8 of the spec, the conceptual single-shot write). -/
def singleShotWrite (mem : Nat → Nat) (addr : Nat) (data : List Nat) : Nat → Nat :=
  fun i => if addr ≤ i ∧ i < addr + data.length then data.getD (i - addr) 0 else mem i

/-! ### Target identifier resolution (`getXdmaIdFromTarget`) -/

/-- The characters of the literal "pcie". -/
def pcieChars : List Char := ['p', 'c', 'i', 'e']

/-- The characters of the literal "xdma". -/
def xdmaChars : List Char := ['x', 'd', 'm', 'a']

/-- The ASCII whitespace characters `int()` strips from both ends of its
argument: tab, LF, VT, FF, CR and space (codepoints 9-13 and 32). -/
def pySpace (c : Char) : Bool :=
  ([9, 10, 11, 12, 13, 32] : List Nat).contains c.toNat

/-- Value of a digit group continuation: ASCII decimal digits, with single
underscores allowed strictly between digits (leading, trailing, doubled, or
sign-adjacent underscores are a `ValueError`). -/
def digitsUAux : List Char → Nat → Option Nat
  | [], acc => some acc
  | ['_'], _ => none
  | '_' :: c :: rest, acc =>
    if c.isDigit then digitsUAux rest (10 * acc + (c.toNat - 48)) else none
  | c :: rest, acc =>
    if c.isDigit then digitsUAux rest (10 * acc + (c.toNat - 48)) else none

/-- Value of a nonempty underscore-grouped ASCII digit string: the first
character must be a digit, then `digitsUAux`. -/
def digitsU? : List Char → Option Nat
  | [] => none
  | c :: rest => if c.isDigit then digitsUAux rest (c.toNat - 48) else none

/-- Python `int()` applied to a string of ASCII characters: surrounding
whitespace is stripped, then an optional single sign directly precedes
underscore-grouped decimal digits.  `none` stands for the `ValueError` that
`int()` raises otherwise.  (On strings with non-ASCII characters Python also
accepts Unicode decimal digits and whitespace; the model is exact only for
ASCII inputs, and the theorems that depend on completeness of this parser
carry an ASCII hypothesis.) -/
def pyInt? (cs : List Char) : Option Int :=
  match ((cs.dropWhile pySpace).reverse.dropWhile pySpace).reverse with
  | '-' :: rest => (digitsU? rest).map (fun n => -(n : Int))
  | '+' :: rest => (digitsU? rest).map (fun n => (n : Int))
  | t => (digitsU? t).map (fun n => (n : Int))

/-- Membership test `int(v) in pcie_xdma_dict.values()`. -/
def memVal (m : List (List Char × Nat)) (v : Int) : Bool :=
  m.any (fun p => ((p.2 : Int) == v))

/-- The errors `getXdmaIdFromTarget` can raise: the `ValueError` escaping from
an unguarded `int()` call, or the final descriptive `RuntimeError` whose
message enumerates the valid identifier pairs in both forms
(`pcie<pci_id> -> xdma<xdma_id>`, the dict comprehension in the source). -/
inductive ResolveErr where
  | valueError : ResolveErr
  | runtimeError : List (List Char × List Char) → ResolveErr
deriving DecidableEq

/-- The descriptive `RuntimeError` for a given enumeration mapping. -/
def diagErr (m : List (List Char × Nat)) : ResolveErr :=
  ResolveErr.runtimeError
    (m.map (fun p => (pcieChars ++ p.1, xdmaChars ++ Nat.toDigits 10 p.2)))

/-- The final `try: if int(target) in values: return int(target) except: pass`
block followed by the descriptive `RuntimeError`.  `v` is the result of
`int(target)` (`none` when it raised and the `except` swallowed it). -/
def bareIntFallback (m : List (List Char × Nat)) (v : Option Int) : Except ResolveErr Nat :=
  match v with
  | some n => if memVal m n then Except.ok n.toNat else Except.error (diagErr m)
  | none => Except.error (diagErr m)

/-- Static method `getXdmaIdFromTarget(target, pcie_xdma_map)` with the enumeration mapping
supplied (the claims quantify over it).  A string target tries, in order: the
`pcie` prefix against the mapping's keys, the `xdma` prefix with `int()` on
the suffix against the mapping's values (where a non-integer suffix lets the
`ValueError` escape), and finally the guarded bare `int(target)`; an integer
target goes straight to the guarded membership test. -/
def getXdmaIdFromTarget (m : List (List Char × Nat)) (target : List Char ⊕ Int) :
    Except ResolveErr Nat :=
  match target with
  | Sum.inl s =>
    match (if pcieChars.isPrefixOf s then m.lookup (s.drop 4) else none) with
    | some k => Except.ok k
    | none =>
      if xdmaChars.isPrefixOf s then
        match pyInt? (s.drop 4) with
        | none => Except.error ResolveErr.valueError
        | some v =>
          if memVal m v then Except.ok v.toNat
          else bareIntFallback m (pyInt? s)
      else bareIntFallback m (pyInt? s)
  | Sum.inr n => bareIntFallback m (some n)

/-! ### Bitstream extraction (`_extract_bitstream`) -/

/-- The header/program sentinel `b"\n?quit\n"`. -/
def sentinel : List Nat := [10, 63, 113, 117, 105, 116, 10]

/-- The gzip magic signature `b"\x1f\x8b\x08"`. -/
def gzipMagic : List Nat := [31, 139, 8]

/-- Helper for `bytes.find`: first position at which `pat` occurs in the
remaining list, with `i` positions already consumed. -/
def findSubAux (pat : List Nat) : List Nat → Nat → Option Nat
  | [], i => if pat.isPrefixOf [] then some i else none
  | x :: rest, i =>
    if pat.isPrefixOf (x :: rest) then some i else findSubAux pat rest (i + 1)

/-- Python `haystack.find(pat)`: index of the first occurrence, `-1` if
absent. -/
def findSub (pat l : List Nat) : Int :=
  match findSubAux pat l 0 with
  | some i => (i : Int)
  | none => -1

/-- Method `_extract_bitstream`, acting on the bytes of the already-read file.
`decompress` stands for the external `zlib.decompress(·, 16 + MAX_WBITS)`;
the md5 content digest, also external and touched by no claim, is omitted.
Note `header_offset` is an `Int`: when the sentinel is absent `find` gives
`-1` and `header_offset` becomes `6`, and the Python `%` on possibly negative
operands is `Int.emod`.  The pad byte is `b"0"`, i.e. `0x30`. -/
def extract_bitstream (decompress : List Nat → List Nat) (fpg : List Nat) :
    List Nat × List Nat :=
  let header_offset : Int := findSub sentinel fpg + 7
  let header := fpg.take header_offset.toNat ++
    List.replicate (1024 - header_offset % 1024).toNat 48
  let prog0 := fpg.drop header_offset.toNat ++
    List.replicate (1024 - ((fpg.length : Int) - header_offset) % 1024).toNat 48
  let prog := if gzipMagic.isPrefixOf prog0 then decompress prog0 else prog0
  (header, prog)

/-! ### Template metadata and upload (`_parse_template_meta`,
`upload_to_ram_and_program`) -/

/-- Method `_parse_template_meta`, acting on the output of the external `parse_fpg`:
`parse_fpg(fpgfile)[0]` is a dict of sections, each a dict of fields, and
`none` for the whole argument stands for `parse_fpg` itself raising.  That
call sits on the line BEFORE the `try`, so a parse error propagates out of
the method (`Except.error`).  Only the body of the `try` — taking the first
section's `"pr_template"` field — has its failures (no sections: `IndexError`;
missing key: `KeyError`) swallowed by the bare `except` into `None`. -/
def parse_template_meta
    (parseResult : Option (List (String × List (String × String)))) :
    Except String (Option String) :=
  match parseResult with
  | none => Except.error "parse_fpg raised"
  | some [] => Except.ok none
  | some ((_, fields) :: _) => Except.ok (fields.lookup "pr_template")

/-- Decidable description of the metadata failure shapes the bare `except`
swallows: the metadata parses but has no sections, or its first section has
no `"pr_template"` key.  (A failure of `parse_fpg` itself is not of this
shape: it propagates.) -/
def templateMetaSwallowed
    (parseResult : Option (List (String × List (String × String)))) : Bool :=
  match parseResult with
  | none => false
  | some [] => true
  | some ((_, fields) :: _) => (fields.lookup "pr_template").isNone

/-- The template mismatch `RuntimeError` message (the source interpolates the
two template tags; the fixed text is modelled). -/
def templateMismatchMsg : String :=
  "Programmed image is templated. Supplied image has mismatching template"

/-- Method `upload_to_ram_and_program(filename)`.  The file's bytes and the external
`parse_fpg` output for it are passed in explicitly.  Returns the session
state after the call paired with the outcome: the `.fpg` suffix assertion,
the (unguarded) template recovery — whose `parse_fpg` error propagates out of
this method too — and the template compatibility check all happen before
anything is streamed; then the extracted program payload is written to the
`h2c` streaming device in one write, then a previously unset session template
adopts the image's one. -/
def upload_to_ram_and_program (decompress : List Nat → List Nat)
    (st : TransportState) (filename : List Char)
    (parseResult : Option (List (String × List (String × String))))
    (fileBytes : List Nat) : TransportState × Except String Bool :=
  if (['.', 'f', 'p', 'g'].isSuffixOf filename) = false then
    (st, Except.error "AssertionError")
  else
    match parse_template_meta parseResult with
    | Except.error e => (st, Except.error e)
    | Except.ok template =>
      let proceed : TransportState × Except String Bool :=
        let prog := (extract_bitstream decompress fileBytes).2
        let st1 : TransportState := { st with streamed := st.streamed ++ [prog] }
        if st.fpg_template = none ∧ template.isSome then
          ({ st1 with fpg_template := template }, Except.ok true)
        else (st1, Except.ok true)
      match st.fpg_template with
      | some t => if some t ≠ template then (st, Except.error templateMismatchMsg) else proceed
      | none => proceed

/-! ### The chunked write loop -/

theorem getD_drop_take (data : List Nat) (w n j : Nat) (hj : j < n)
    (_hn : n ≤ data.length - w) :
    ((data.drop w).take n).getD j 0 = data.getD (w + j) 0 := by
  simp only [List.getD_eq_getElem?_getD, List.getElem?_take, List.getElem?_drop, hj,
    if_true]

/-- The write loop, run with enough remaining iterations to finish and a
target range inside the mapped window, terminates without error and sets
exactly the bytes `data[written:]` at `addr + written`, leaving the rest of
the memory untouched. -/
theorem writeChunksAux_spec (addr : Nat) (data : List Nat)
    (hwin : addr + data.length ≤ MAP_SIZE) :
    ∀ (k written : Nat) (mem : Nat → Nat),
    data.length ≤ written + k * 4096 → written ≤ data.length →
    writeChunksAux addr data k written mem =
      ((fun i => if addr + written ≤ i ∧ i < addr + data.length
                 then data.getD (i - addr) 0 else mem i), none) := by
  intro k
  induction k with
  | zero =>
    intro written mem h1 h2
    have hw : written = data.length := by omega
    simp only [writeChunksAux]
    refine congrArg (fun g => (g, none)) (funext fun i => ?_)
    dsimp only
    rw [if_neg (by omega)]
  | succ k ih =>
    intro written mem h1 h2
    by_cases hlt : written < data.length
    · have hn : 0 < min (data.length - written) 4096 := by omega
      have hb : addr + written + min (data.length - written) 4096 ≤ MAP_SIZE := by
        omega
      rw [writeChunksAux, if_pos hn, if_pos hb,
        ih (written + min (data.length - written) 4096) _ (by omega) (by omega)]
      refine congrArg (fun g => (g, none)) (funext fun i => ?_)
      dsimp only
      have hchl : ((data.drop written).take (min (data.length - written) 4096)).length
          = min (data.length - written) 4096 := by
        simp only [List.length_take, List.length_drop]
        omega
      by_cases hA : addr + (written + min (data.length - written) 4096) ≤ i ∧
          i < addr + data.length
      · rw [if_pos hA, if_pos (by omega)]
      · rw [if_neg hA]
        simp only [mmSetSlice]
        rw [hchl]
        by_cases hB : addr + written ≤ i ∧
            i < addr + written + min (data.length - written) 4096
        · rw [if_pos hB,
            getD_drop_take data written _ (i - (addr + written)) (by omega) (by omega),
            if_pos (by omega)]
          congr 1
          omega
        · rw [if_neg hB, if_neg (by omega)]
    · have hw : written = data.length := by omega
      have hn0 : ¬ 0 < min (data.length - written) 4096 := by omega
      rw [writeChunksAux, if_neg hn0, ih written mem (by omega) h2]

/-- Claim C2.  The chunked write loop of `blindwrite` (started exactly as
`blindwrite` starts it: `size // 4096 + 1` iterations, `written = 0`), for
any payload whose translated range lies in the 8 MiB window — spanning any
number of 4096-byte chunk boundaries, the length an exact multiple of 4096
included — succeeds and leaves the mapped memory in exactly the state of a
single contiguous write of the whole payload at the same translated
address. -/
theorem chunked_write_eq_single_shot (mem : Nat → Nat) (addr : Nat)
    (data : List Nat) (hwin : addr + data.length ≤ MAP_SIZE) :
    writeChunksAux addr data (data.length / 4096 + 1) 0 mem =
      (singleShotWrite mem addr data, none) := by
  rw [writeChunksAux_spec addr data hwin (data.length / 4096 + 1) 0 mem
    (by omega) (by omega)]
  refine congrArg (fun g => (g, none)) (funext fun i => ?_)
  dsimp only [singleShotWrite]
  rw [Nat.add_zero]

/-- Witness for C2 at a concrete payload: 8192 bytes at translated address 0,
spanning one chunk boundary with length an exact multiple of 4096 (the spec's
own example shape). -/
theorem chunked_write_eq_single_shot_witness :
    0 + (List.replicate 8192 (7 : Nat)).length ≤ MAP_SIZE ∧
    writeChunksAux 0 (List.replicate 8192 (7 : Nat))
        ((List.replicate 8192 (7 : Nat)).length / 4096 + 1) 0 (fun _ => 0) =
      (singleShotWrite (fun _ => 0) 0 (List.replicate 8192 (7 : Nat)), none) :=
  ⟨by simp only [List.length_replicate, MAP_SIZE]; omega,
   chunked_write_eq_single_shot (fun _ => 0) 0 (List.replicate 8192 (7 : Nat))
     (by simp only [List.length_replicate, MAP_SIZE]; omega)⟩

/-! ### Write/read round trip -/

/-- Reading back a freshly written region returns the written bytes. -/
theorem pySlice_of_written (addr : Nat) (data : List Nat) (mem : Nat → Nat)
    (hwin : addr + data.length ≤ MAP_SIZE) :
    pySlice (fun i => if addr ≤ i ∧ i < addr + data.length
        then data.getD (i - addr) 0 else mem i) addr (addr + data.length) = data := by
  rw [pySlice, Nat.min_eq_left (by omega), Nat.min_eq_left (by omega),
    Nat.add_sub_cancel_left]
  apply List.ext_getElem
  · simp
  · intro j h1 h2
    simp only [List.getElem_map, List.getElem_range', Nat.one_mul]
    rw [if_pos (by simp only [List.length_map, List.length_range'] at h1; omega)]
    have hij : addr + j - addr = j := by omega
    rw [hij, List.getD_eq_getElem?_getD, List.getElem?_eq_getElem h2, Option.getD_some]

/-- Claim C1.  For every valid aligned write — byte payload with
`len(data) % 4 == 0`, `offset % 4 == 0`, and the translated range inside the
8 MiB window — `blindwrite` at an absolute address succeeds, and `read` of
`len(data)` bytes at the same address and offset returns exactly the bytes
written. -/
theorem blindwrite_read_roundtrip (st : TransportState) (a offset : Nat)
    (data : List Nat) (h4 : data.length % 4 = 0) (ho : offset % 4 = 0)
    (hwin : a + offset + data.length ≤ MAP_SIZE) :
    ∃ st', blindwrite st (Sum.inr (a : Int)) data offset = (st', Except.ok ()) ∧
      read st' (Sum.inr (a : Int)) data.length offset = Except.ok data := by
  have hms : MAP_SIZE = 8388608 := rfl
  have hdev : ∀ s : TransportState,
      get_device_address s (Sum.inr (a : Int)) = Except.ok a := by
    intro s
    simp only [get_device_address]
    rw [if_pos (by constructor <;> omega)]
    simp
  have htr : a - AXIL_PCI_ADDR_TRANSLATION + offset = a + offset := by
    simp [AXIL_PCI_ADDR_TRANSLATION]
  refine ⟨{ st with mem := fun i => if a + offset ≤ i ∧ i < a + offset + data.length then data.getD (i - (a + offset)) 0 else st.mem i }, ?_, ?_⟩
  · rw [blindwrite, if_neg (by omega), if_neg (by omega), hdev st]
    dsimp only
    rw [htr, writeChunksAux_spec (a + offset) data (by omega) (data.length / 4096 + 1)
      0 st.mem (by omega) (by omega)]
    dsimp only
    refine congrArg (fun m => ({ st with mem := m }, Except.ok ())) ?_
    funext i
    rw [Nat.add_zero]
  · rw [read, hdev _]
    dsimp only
    rw [htr]
    exact congrArg Except.ok (pySlice_of_written (a + offset) data st.mem (by omega))

/-- A fresh session state: empty register-name table, zeroed window, no
template, nothing streamed yet (used by the concrete witnesses). -/
def freshState : TransportState :=
  { memory_devices := [], mem := fun _ => 0, fpg_template := none, streamed := [] }

/-- Witness for C1: write the bytes `[1, 2, 3, 4]` at absolute address 0,
offset 0, then read 4 bytes back. -/
theorem blindwrite_read_roundtrip_witness :
    (List.length [1, 2, 3, 4]) % 4 = 0 ∧ (0 : Nat) % 4 = 0 ∧
    0 + 0 + List.length [1, 2, 3, 4] ≤ MAP_SIZE ∧
    ∃ st', blindwrite freshState (Sum.inr ((0 : Nat) : Int)) [1, 2, 3, 4] 0 =
        (st', Except.ok ()) ∧
      read st' (Sum.inr ((0 : Nat) : Int)) (List.length [1, 2, 3, 4]) 0 =
        Except.ok [1, 2, 3, 4] :=
  ⟨by decide, by decide, by decide,
   blindwrite_read_roundtrip freshState 0 0 [1, 2, 3, 4]
     (by decide) (by decide) (by decide)⟩

/-! ### Alignment checking and exact reads -/

/-- Claim C8.  A write whose payload length is not a multiple of 4 or whose
offset is not a multiple of 4 fails with the alignment assertion error (for
any device specifier, valid or not), and the session state — the mapped
window included — is exactly the state before the call: nothing is
transferred, realigned or truncated.  (That the payload is a byte string is
enforced by the embedding's types; in the source the `type(data) == bytes`
assertion precedes the transfer in the same way.) -/
theorem blindwrite_unaligned_rejected (st : TransportState) (dev : DeviceName)
    (data : List Nat) (offset : Nat)
    (h : ¬ (data.length % 4 = 0 ∧ offset % 4 = 0)) :
    blindwrite st dev data offset =
      (st, Except.error "Must write 32-bit-bounded words") := by
  by_cases h4 : data.length % 4 = 0
  · rw [blindwrite, if_neg (by omega), if_pos (by tauto)]
  · rw [blindwrite, if_pos h4]

/-- Witness for C8: a 3-byte payload at offset 0 is rejected with the state
unchanged. -/
theorem blindwrite_unaligned_rejected_witness :
    ¬ ((List.length [1, 2, 3]) % 4 = 0 ∧ (0 : Nat) % 4 = 0) ∧
    blindwrite freshState (Sum.inr 0) [1, 2, 3] 0 =
      (freshState, Except.error "Must write 32-bit-bounded words") :=
  ⟨by decide,
   blindwrite_unaligned_rejected freshState (Sum.inr 0) [1, 2, 3] 0 (by decide)⟩

/-- Claim C9.  `read` on any resolvable device address, with any size and
offset whose translated range lies in the window — no alignment requirement
on any of the three — returns exactly the window contents at
`[addr - translation + offset, addr - translation + offset + size)`, a list
of exactly `size` bytes. -/
theorem read_returns_exact_range (st : TransportState) (dev : DeviceName)
    (size offset a : Nat)
    (hdev : get_device_address st dev = Except.ok a)
    (hwin : a + offset + size ≤ MAP_SIZE) :
    read st dev size offset =
      Except.ok ((List.range' (a - AXIL_PCI_ADDR_TRANSLATION + offset) size).map
        st.mem) ∧
    ((List.range' (a - AXIL_PCI_ADDR_TRANSLATION + offset) size).map st.mem).length
      = size := by
  have htr : a - AXIL_PCI_ADDR_TRANSLATION + offset = a + offset := by
    simp [AXIL_PCI_ADDR_TRANSLATION]
  constructor
  · rw [read, hdev]
    dsimp only
    rw [htr, pySlice, Nat.min_eq_left (by omega), Nat.min_eq_left (by omega),
      Nat.add_sub_cancel_left]
  · simp

/-- Witness for C9: a 3-byte read at offset 1 (both unaligned) of a fresh
zeroed window through the absolute-address escape hatch. -/
theorem read_returns_exact_range_witness :
    get_device_address freshState (Sum.inr 8) = Except.ok 8 ∧
    8 + 1 + 3 ≤ MAP_SIZE ∧
    (read freshState (Sum.inr 8) 3 1 =
      Except.ok ((List.range' (8 - AXIL_PCI_ADDR_TRANSLATION + 1) 3).map
        freshState.mem) ∧
    ((List.range' (8 - AXIL_PCI_ADDR_TRANSLATION + 1) 3).map freshState.mem).length
      = 3) :=
  ⟨by decide, by decide,
   read_returns_exact_range freshState (Sum.inr 8) 3 1 8 (by decide) (by decide)⟩

/-! ### Upload: template lock and metadata failure -/

/-- Claim C5.  When the session's template tag is set to `t` and an image
declaring a different template `u` is uploaded, the call fails with the
template-mismatch error, and the returned session state is exactly the state
before the call: nothing is streamed to the programming device and the
recorded template tag is unchanged. -/
theorem upload_template_mismatch_atomic (decompress : List Nat → List Nat)
    (st : TransportState) (filename : List Char)
    (parseResult : Option (List (String × List (String × String))))
    (fileBytes : List Nat) (t u : String)
    (hf : (['.', 'f', 'p', 'g'].isSuffixOf filename) = true)
    (hst : st.fpg_template = some t)
    (hpr : parse_template_meta parseResult = Except.ok (some u))
    (hne : u ≠ t) :
    upload_to_ram_and_program decompress st filename parseResult fileBytes =
      (st, Except.error templateMismatchMsg) ∧
    (upload_to_ram_and_program decompress st filename parseResult fileBytes).1.streamed
      = st.streamed ∧
    (upload_to_ram_and_program decompress st filename parseResult fileBytes).1.fpg_template
      = some t := by
  have hmain : upload_to_ram_and_program decompress st filename parseResult fileBytes
      = (st, Except.error templateMismatchMsg) := by
    rw [upload_to_ram_and_program, if_neg (by rw [hf]; exact fun he => by cases he),
      hpr]
    dsimp only
    rw [hst]
    dsimp only
    rw [if_pos (show some t ≠ some u from fun he => hne (Option.some_injective _ he).symm)]
  exact ⟨hmain, by rw [hmain], by rw [hmain, hst]⟩

/-- The example filename of the witnesses: "img.fpg". -/
def imgFpg : List Char := ['i', 'm', 'g', '.', 'f', 'p', 'g']

/-- A session state locked to template "a". -/
def lockedState : TransportState := { freshState with fpg_template := some "a" }

/-- Witness for C5: a session locked to template "a" rejects an image
declaring template "b" and is unchanged. -/
theorem upload_template_mismatch_atomic_witness :
    (['.', 'f', 'p', 'g'].isSuffixOf imgFpg) = true ∧
    lockedState.fpg_template = some "a" ∧
    parse_template_meta (some [("s", [("pr_template", "b")])]) =
      Except.ok (some "b") ∧
    upload_to_ram_and_program (fun x => x) lockedState imgFpg
        (some [("s", [("pr_template", "b")])]) sentinel =
      (lockedState, Except.error templateMismatchMsg) :=
  ⟨by decide, by decide, by decide,
   (upload_template_mismatch_atomic (fun x => x) lockedState imgFpg
     (some [("s", [("pr_template", "b")])]) sentinel "a" "b"
     (by decide) (by decide) (by decide) (by decide)).1⟩

/-- Claim C10, amended.  When the image's structured metadata parses but
yields no template tag through a failure the bare `except` swallows (no
sections, or no `"pr_template"` key in the first section),
`_parse_template_meta` returns `None` instead of raising; uploading such an
image into a session with no recorded template then succeeds without setting
the session's template, while uploading it into a session with a recorded
template fails with the template-mismatch error.  (A parse error of
`parse_fpg` itself is outside the `try` and propagates instead of returning
`None`; see the counterexample.) -/
theorem template_meta_swallowed_consequences (decompress : List Nat → List Nat)
    (st : TransportState) (t : String) (filename : List Char)
    (parseResult : Option (List (String × List (String × String))))
    (fileBytes : List Nat)
    (hf : (['.', 'f', 'p', 'g'].isSuffixOf filename) = true)
    (hmeta : templateMetaSwallowed parseResult = true) :
    parse_template_meta parseResult = Except.ok none ∧
    upload_to_ram_and_program decompress { st with fpg_template := none } filename
        parseResult fileBytes =
      ({ st with fpg_template := none, streamed := st.streamed ++ [(extract_bitstream decompress fileBytes).2] },
       Except.ok true) ∧
    upload_to_ram_and_program decompress { st with fpg_template := some t } filename
        parseResult fileBytes =
      ({ st with fpg_template := some t }, Except.error templateMismatchMsg) := by
  have hnone : parse_template_meta parseResult = Except.ok none := by
    match parseResult with
    | none => exact absurd hmeta (by decide)
    | some [] => rfl
    | some ((n, fields) :: rest) =>
      rw [parse_template_meta]
      rw [templateMetaSwallowed] at hmeta
      rw [Option.isNone_iff_eq_none.mp hmeta]
  have hfneg : ¬ (['.', 'f', 'p', 'g'].isSuffixOf filename) = false := by
    rw [hf]; exact fun he => by cases he
  refine ⟨hnone, ?_, ?_⟩
  · rw [upload_to_ram_and_program, if_neg hfneg, hnone]
    dsimp only
    rw [if_neg (by simp)]
  · rw [upload_to_ram_and_program, if_neg hfneg, hnone]
    dsimp only
    rw [if_pos (Option.some_ne_none t)]

/-- Witness for the amended C10: an image whose metadata has sections but no
`"pr_template"` key. -/
theorem template_meta_swallowed_consequences_witness :
    (['.', 'f', 'p', 'g'].isSuffixOf imgFpg) = true ∧
    templateMetaSwallowed (some [("s", [("other", "x")])]) = true ∧
    (parse_template_meta (some [("s", [("other", "x")])]) = Except.ok none ∧
    upload_to_ram_and_program (fun x => x)
        { freshState with fpg_template := none } imgFpg
        (some [("s", [("other", "x")])]) sentinel =
      ({ freshState with fpg_template := none, streamed := freshState.streamed ++ [(extract_bitstream (fun x => x) sentinel).2] },
       Except.ok true) ∧
    upload_to_ram_and_program (fun x => x)
        { freshState with fpg_template := some "a" } imgFpg
        (some [("s", [("other", "x")])]) sentinel =
      ({ freshState with fpg_template := some "a" },
       Except.error templateMismatchMsg)) :=
  ⟨by decide, by decide,
   template_meta_swallowed_consequences (fun x => x) freshState "a" imgFpg
     (some [("s", [("other", "x")])]) sentinel (by decide) (by decide)⟩

/-- Counterexample to Claim C10 as stated.  For an image whose metadata does
not parse (`parse_fpg` raises), the claim predicts that template recovery
returns `None` and that an upload into a template-less session succeeds; but
`parse_fpg(fpgfile)[0]` sits on the line before the `try`, so the parse
error propagates out of `_parse_template_meta` and out of
`upload_to_ram_and_program`, which streams nothing and fails. -/
theorem template_parse_error_counterexample :
    parse_template_meta none = Except.error "parse_fpg raised" ∧
    upload_to_ram_and_program (fun x => x) freshState imgFpg none sentinel =
      (freshState, Except.error "parse_fpg raised") :=
  ⟨rfl, rfl⟩

/-! ### Bitstream extraction: padding and sentinel behavior -/

/-- Claim C3, amended.  For a raw image `hdr ++ payload` whose header ends at
the first sentinel occurrence (`find` returns `i`, the header being the
`i + 7` bytes through the end of the sentinel) and whose padded payload is
not gzip-framed, `extract` returns the header extended by
`1024 - header_length % 1024` pad bytes and the payload extended by
`1024 - L % 1024` pad bytes, each computed independently of the other.  The
pad byte is ASCII "0" (0x30), not a zero byte, and the pad count is never 0:
a section whose length is already a multiple of 1024 receives a full extra
1024-byte pad block (so the program section's length equals
`ceil(L/1024)*1024` only when `L` is not itself a multiple of 1024). -/
theorem extract_sentinel_split (decompress : List Nat → List Nat)
    (fpg hdr payload : List Nat) (i : Nat)
    (hsplit : fpg = hdr ++ payload)
    (hlen : hdr.length = i + 7)
    (hfind : findSub sentinel fpg = (i : Int))
    (hgz : gzipMagic.isPrefixOf
      (payload ++ List.replicate (1024 - payload.length % 1024) 48) = false) :
    extract_bitstream decompress fpg =
      (hdr ++ List.replicate (1024 - hdr.length % 1024) 48,
       payload ++ List.replicate (1024 - payload.length % 1024) 48) := by
  subst hsplit
  simp only [extract_bitstream, hfind]
  have hflen : (hdr ++ payload).length = hdr.length + payload.length :=
    List.length_append hdr payload
  have h7 : ((i : Int) + 7).toNat = i + 7 := by omega
  rw [h7, List.take_left' hlen, List.drop_left' hlen]
  have hc1 : (1024 - ((i : Int) + 7) % 1024).toNat = 1024 - hdr.length % 1024 := by
    omega
  have hc2 : (1024 - (((hdr ++ payload).length : Int) - ((i : Int) + 7)) % 1024).toNat
      = 1024 - payload.length % 1024 := by
    omega
  rw [hc1, hc2, if_neg (by rw [hgz]; exact fun he => by cases he)]

/-- Witness for the amended C3 at the raw image
`[65] ++ sentinel ++ [66, 67, 68]`: header of 8 bytes gains 1016 pad bytes,
payload of 3 bytes gains 1021 pad bytes. -/
theorem extract_sentinel_split_witness :
    (65 :: sentinel) ++ [66, 67, 68] = (65 :: sentinel) ++ [66, 67, 68] ∧
    (65 :: sentinel).length = 1 + 7 ∧
    findSub sentinel ((65 :: sentinel) ++ [66, 67, 68]) = (1 : Int) ∧
    gzipMagic.isPrefixOf
      ([66, 67, 68] ++ List.replicate (1024 - (List.length [66, 67, 68]) % 1024) 48)
      = false ∧
    extract_bitstream (fun x => x) ((65 :: sentinel) ++ [66, 67, 68]) =
      ((65 :: sentinel) ++ List.replicate (1024 - (65 :: sentinel).length % 1024) 48,
       [66, 67, 68] ++ List.replicate (1024 - (List.length [66, 67, 68]) % 1024) 48) :=
  ⟨rfl, by decide, by decide, by decide,
   extract_sentinel_split (fun x => x) ((65 :: sentinel) ++ [66, 67, 68])
     (65 :: sentinel) [66, 67, 68] 1 rfl (by decide) (by decide) (by decide)⟩

set_option maxRecDepth 100000 in
/-- Counterexample to Claim C3 as stated.  For the raw image consisting of
the sentinel alone (header of 7 bytes, program payload of length `L = 0`)
the claim predicts a program section of `ceil(0/1024)*1024 = 0` zero-padded
bytes, i.e. the empty list; the code returns 1024 bytes, and the header's
padding (its byte at index 7) is ASCII "0" (0x30), not the zero byte. -/
theorem extract_padding_counterexample :
    (extract_bitstream (fun x => x) sentinel).2.length = 1024 ∧
    (extract_bitstream (fun x => x) sentinel).2 ≠ [] ∧
    (extract_bitstream (fun x => x) sentinel).1.getD 7 0 = 48 := by
  refine ⟨by decide, by decide, by decide⟩

set_option maxRecDepth 100000 in
/-- Claim C4 evaluated on the code.  On a file that does not contain the
sentinel, `bytes.find` returns `-1`, so `header_offset` silently becomes
`-1 + 7 = 6` and `_extract_bitstream` returns a header/program split (the
first 6 bytes padded, and the rest padded) instead of failing: no error of
any kind is raised.  Failing input: the 8 bytes `b"ABCDEFGH"`. -/
theorem extract_missing_sentinel_misparse :
    findSub sentinel [65, 66, 67, 68, 69, 70, 71, 72] = -1 ∧
    extract_bitstream (fun x => x) [65, 66, 67, 68, 69, 70, 71, 72] =
      ([65, 66, 67, 68, 69, 70] ++ List.replicate 1018 48,
       [71, 72] ++ List.replicate 1022 48) := by
  refine ⟨by decide, by decide⟩

/-! ### Resolver: agreement of the two identifier forms, and failures -/

theorem isPrefixOf_append_self (l s : List Char) : l.isPrefixOf (l ++ s) = true := by
  rw [List.isPrefixOf_iff_prefix]
  exact List.prefix_append l s

/-- A key/value pair found by `lookup` puts its value among the mapping's
values. -/
theorem memVal_of_lookup (m : List (List Char × Nat)) (A : List Char) (K : Nat)
    (h : m.lookup A = some K) : memVal m (K : Int) = true := by
  induction m with
  | nil => simp at h
  | cons p rest ih =>
    obtain ⟨k, v⟩ := p
    rw [List.lookup_cons] at h
    cases hAk : A == k with
    | true =>
      rw [hAk] at h
      cases h
      simp [memVal]
    | false =>
      rw [hAk] at h
      have hv := ih h
      simp only [memVal, List.any_cons, Bool.or_eq_true]
      exact Or.inr (by simpa [memVal] using hv)

/-- Claim C6.  Whenever the enumeration mapping pairs the PCI id `A` with the
instance id `K`, resolving `"pcie" ++ A` and resolving `"xdma" ++ s` — `s`
any string that `int()` parses to `K` — both succeed and return the same
instance id `K`. -/
theorem resolve_pcie_xdma_agree (m : List (List Char × Nat)) (A s : List Char)
    (K : Nat) (hA : m.lookup A = some K) (hs : pyInt? s = some ((K : Nat) : Int)) :
    getXdmaIdFromTarget m (Sum.inl (pcieChars ++ A)) = Except.ok K ∧
    getXdmaIdFromTarget m (Sum.inl (xdmaChars ++ s)) = Except.ok K := by
  constructor
  · simp only [getXdmaIdFromTarget]
    rw [isPrefixOf_append_self pcieChars A, if_pos rfl,
      List.drop_left' (show pcieChars.length = 4 from rfl), hA]
  · simp only [getXdmaIdFromTarget]
    have hpx : pcieChars.isPrefixOf (xdmaChars ++ s) = false := rfl
    rw [hpx, if_neg Bool.false_ne_true]
    dsimp only
    rw [isPrefixOf_append_self xdmaChars s, if_pos rfl,
      List.drop_left' (show xdmaChars.length = 4 from rfl), hs]
    dsimp only
    rw [memVal_of_lookup m A K hA, if_pos rfl, Int.toNat_ofNat]

/-- Witness for C6 on the mapping pairing PCI id "b" with instance id 2:
both `"pcieb"` and `"xdma2"` resolve to 2. -/
theorem resolve_pcie_xdma_agree_witness :
    ([(['b'], 2)] : List (List Char × Nat)).lookup ['b'] = some 2 ∧
    pyInt? ['2'] = some ((2 : Nat) : Int) ∧
    (getXdmaIdFromTarget [(['b'], 2)] (Sum.inl (pcieChars ++ ['b'])) = Except.ok 2 ∧
     getXdmaIdFromTarget [(['b'], 2)] (Sum.inl (xdmaChars ++ ['2'])) = Except.ok 2) :=
  ⟨by decide, by decide,
   resolve_pcie_xdma_agree [(['b'], 2)] ['b'] ['2'] 2 (by decide) (by decide)⟩

/-- Claim C7, amended.  An ASCII target (the region where `pyInt?` is an
exact model of `int()`) matching none of the accepted forms — no
`pcie`-prefixed string with a mapped PCI id, no `xdma`-prefixed string whose
parsed suffix is a mapped instance id, and no integer (a bare integer, or a
bare string that `int()` parses, among the mapping's values — note that an
integer-parsable bare string among the values would resolve successfully,
not fail) — always fails, but not always with the descriptive error: an
`xdma`-prefixed string whose suffix does not parse as an integer raises the
`ValueError` escaping from `int()`, and every other unmapped target raises
the descriptive `RuntimeError` enumerating the valid identifier pairs in
both forms. -/
theorem resolve_unmapped_fails (m : List (List Char × Nat)) (s : List Char)
    (n : Int)
    (_hascii : s.all (fun c => c.toNat < 128) = true)
    (hpcie : pcieChars.isPrefixOf s = true → m.lookup (s.drop 4) = none)
    (hxd : xdmaChars.isPrefixOf s = true →
      (pyInt? (s.drop 4)).all (fun v => !memVal m v) = true)
    (hbare : (pyInt? s).all (fun v => !memVal m v) = true)
    (hn : memVal m n = false) :
    getXdmaIdFromTarget m (Sum.inl s) =
      Except.error (if xdmaChars.isPrefixOf s = true ∧ pyInt? (s.drop 4) = none
        then ResolveErr.valueError else diagErr m) ∧
    getXdmaIdFromTarget m (Sum.inr n) = Except.error (diagErr m) := by
  have hfall : bareIntFallback m (pyInt? s) = Except.error (diagErr m) := by
    cases hps : pyInt? s with
    | none => rfl
    | some w =>
      rw [hps] at hbare
      have hw : memVal m w = false := by simpa using hbare
      rw [bareIntFallback, hw, if_neg Bool.false_ne_true]
  constructor
  · simp only [getXdmaIdFromTarget]
    have hone : (if pcieChars.isPrefixOf s then m.lookup (s.drop 4) else none)
        = none := by
      by_cases hp : pcieChars.isPrefixOf s = true
      · rw [hp, if_pos rfl]
        exact hpcie hp
      · rw [if_neg hp]
    rw [hone]
    dsimp only
    by_cases hx : xdmaChars.isPrefixOf s = true
    · rw [hx, if_pos rfl]
      cases hparse : pyInt? (s.drop 4) with
      | none =>
        rw [if_pos ⟨rfl, rfl⟩]
      | some v =>
        have hmv : memVal m v = false := by
          have := hxd hx
          rw [hparse] at this
          simpa using this
        rw [if_neg (by rintro ⟨-, hc⟩; cases hc)]
        dsimp only
        rw [hmv, if_neg Bool.false_ne_true, hfall]
    · rw [if_neg hx, hfall, if_neg (fun hc => hx hc.1)]
  · simp only [getXdmaIdFromTarget, bareIntFallback]
    rw [hn, if_neg Bool.false_ne_true]

/-- Witness for the amended C7: with the mapping pairing "b" with 2, the
shapeless target `"hi"` and the unmapped integer `5` both fail with the
descriptive error. -/
theorem resolve_unmapped_fails_witness :
    (['h', 'i'].all (fun c => c.toNat < 128) = true) ∧
    (pcieChars.isPrefixOf ['h', 'i'] = true →
      ([(['b'], 2)] : List (List Char × Nat)).lookup (['h', 'i'].drop 4) = none) ∧
    (xdmaChars.isPrefixOf ['h', 'i'] = true →
      (pyInt? (['h', 'i'].drop 4)).all (fun v => !memVal [(['b'], 2)] v) = true) ∧
    (pyInt? ['h', 'i']).all (fun v => !memVal [(['b'], 2)] v) = true ∧
    memVal [(['b'], 2)] 5 = false ∧
    (getXdmaIdFromTarget [(['b'], 2)] (Sum.inl ['h', 'i']) =
      Except.error (if xdmaChars.isPrefixOf ['h', 'i'] = true ∧
          pyInt? (['h', 'i'].drop 4) = none
        then ResolveErr.valueError else diagErr [(['b'], 2)]) ∧
     getXdmaIdFromTarget [(['b'], 2)] (Sum.inr 5) =
      Except.error (diagErr [(['b'], 2)])) :=
  ⟨by decide, by decide, by decide, by decide, by decide,
   resolve_unmapped_fails [(['b'], 2)] ['h', 'i'] 5
     (by decide) (by decide) (by decide) (by decide) (by decide)⟩

/-- Counterexample to Claim C7 as stated.  With the mapping pairing "b" with
instance id 2, the target `"xdmaZ"` is in the claim's failure class (it is
neither a mapped `pcie` form, nor an `xdma` form with a mapped instance id,
nor an integer), but resolution raises the `ValueError` escaping from
`int("Z")`, not the descriptive error that enumerates the valid identifier
pairs. -/
theorem resolve_valueerror_counterexample :
    getXdmaIdFromTarget [(['b'], 2)] (Sum.inl (xdmaChars ++ ['Z'])) =
      Except.error ResolveErr.valueError ∧
    ResolveErr.valueError ≠ diagErr [(['b'], 2)] := by
  refine ⟨by decide, by decide⟩

end LocalPcieTransport
